import Mathlib

/-!
Verification of the ESP8266 HTU21D OTA firmware against its design
specification.

The development shallowly embeds the connection-and-scheduling core of the
sketch (the variant in `src/unnamed/part_000`, with divergences of the
variant in `src/unnamed/part_001` modelled separately where a claim cites
them).  C `float` sensor readings are modelled as rationals, C unsigned
integers as naturals (the code guards every subtraction with a comparison,
so truncated subtraction on the naturals agrees with the machine
arithmetic on all in-range values), and out-of-bounds C array accesses or
null-pointer dereferences surface as explicit error values.
-/

namespace ESP8266HTU21D

/-! ## Telemetry reader (readTelemetry, part_000 lines 549-596) -/

/-- The quantities mutated by `readTelemetry`: the last stored readings,
the RSSI, the two per-channel consecutive-bad-reading counters, and the
time of the last sensor poll. -/
structure TelemetryState where
  tempC : ℚ
  tempF : ℚ
  humidity : ℚ
  rssi : ℤ
  consecutiveBadTemp : ℕ
  consecutiveBadHumidity : ℕ
  lastPollTime : ℕ
  deriving Repr, DecidableEq

/-- The temperature validity test exactly as written in the source
(part_000 line 560): `temporaryTemperature > -30 || temporaryTemperature < 90`.
Note the logical OR between the two bounds. -/
def tempValid (t : ℚ) : Bool :=
  decide (t > -30) || decide (t < 90)

/-- The humidity validity test exactly as written in the source
(part_000 line 574): `temporaryHumidity >= 0 || temporaryHumidity <= 100`.
Note the logical OR between the two bounds. -/
def humidityValid (h : ℚ) : Bool :=
  decide (h ≥ 0) || decide (h ≤ 100)

/-- The restart condition of `readTelemetry` exactly as written in the
source (part_000 line 586): `consecutiveBadTemp > 4 || consecutiveBadHumidity > 4`. -/
def restartCheck (badTemp badHumidity : ℕ) : Bool :=
  decide (badTemp > 4) || decide (badHumidity > 4)

/-- Result of one `readTelemetry` call: the new state, and whether
`ESP.restart()` was reached (the call does not return in that case, so no
further field update happens). -/
structure ReadOutcome where
  state : TelemetryState
  restart : Bool
  deriving Repr, DecidableEq

/-- Shallow embedding of `readTelemetry` (part_000 lines 549-596).
Inputs: current state, the fresh RSSI, the success flag of `htu21d.read()`,
the sensor temperature and humidity, and the value of `millis()` at the
final assignment.  Mirrors the source statement by statement: RSSI is
stored first; on a successful read the temperature is tested with
`tempValid` (acceptance stores `tempC`, derives `tempF` and clears the
counter; rejection increments the counter), the humidity likewise with
`humidityValid`; then the restart condition is evaluated on the updated
counters; `lastPollTime` is assigned only when `ESP.restart()` is not
reached. -/
def readTelemetry (s : TelemetryState) (rssiNow : ℤ) (readOk : Bool)
    (t h : ℚ) (now : ℕ) : ReadOutcome :=
  let s0 := { s with rssi := rssiNow }
  if readOk then
    let s1 :=
      if tempValid t then
        { s0 with tempC := t, tempF := t * 9 / 5 + 32, consecutiveBadTemp := 0 }
      else
        { s0 with consecutiveBadTemp := s0.consecutiveBadTemp + 1 }
    let s2 :=
      if humidityValid h then
        { s1 with humidity := h, consecutiveBadHumidity := 0 }
      else
        { s1 with consecutiveBadHumidity := s1.consecutiveBadHumidity + 1 }
    if restartCheck s2.consecutiveBadTemp s2.consecutiveBadHumidity then
      { state := s2, restart := true }
    else
      { state := { s2 with lastPollTime := now }, restart := false }
  else
    { state := { s0 with lastPollTime := now }, restart := false }

/-! ## Claims C1 and C2 -/

/-- C1 counterexample: the claim asserts that a consecutive-bad-reading
counter value of exactly 5 does not trigger a restart.  The restart
condition written in the source (part_000 line 586, part_001 line 528) is
`consecutiveBadTemp > 4 || consecutiveBadHumidity > 4`, which is already
true at the value 5. -/
theorem restartCheck_fires_at_five : restartCheck 5 0 = true := by
  decide

/-- C1 (amended): for every call to `readTelemetry` in which the sensor
read succeeds, `ESP.restart()` is reached if and only if, after the
per-channel counter updates, `consecutiveBadTemp` exceeds 4 or
`consecutiveBadHumidity` exceeds 4; the boundary lies at 4 (a counter of 4
does not trigger a restart, 5 does). -/
theorem readTelemetry_restart_threshold (s : TelemetryState) (rssiNow : ℤ)
    (t h : ℚ) (now : ℕ) :
    ((readTelemetry s rssiNow true t h now).restart =
      (decide (4 < (readTelemetry s rssiNow true t h now).state.consecutiveBadTemp) ||
       decide (4 < (readTelemetry s rssiNow true t h now).state.consecutiveBadHumidity))) ∧
    restartCheck 4 4 = false ∧ restartCheck 5 0 = true := by
  refine ⟨?_, by decide, by decide⟩
  cases h1 : tempValid t <;> cases h2 : humidityValid h <;>
    simp only [readTelemetry, h1, h2, Bool.false_eq_true, if_true, if_false, ite_true,
      ite_false] <;>
    split <;> simp_all [restartCheck]

/-- C2: the code accepts readings the claim requires it to reject.  With a
successful read returning temperature 95 °C (outside the plausible band,
which ends below 90) and humidity 101 % (outside 0-100), the always-true
OR validity checks accept both: the stored values are overwritten with the
out-of-band readings and both bad-counters are cleared, where the claim
requires the counters to be incremented and the stored values retained. -/
theorem readTelemetry_accepts_out_of_band :
    (readTelemetry ⟨21, 70, 40, -60, 3, 3, 0⟩ (-70) true 95 101 77).state.tempC = 95 ∧
    (readTelemetry ⟨21, 70, 40, -60, 3, 3, 0⟩ (-70) true 95 101 77).state.tempF = 203 ∧
    (readTelemetry ⟨21, 70, 40, -60, 3, 3, 0⟩ (-70) true 95 101 77).state.humidity = 101 ∧
    (readTelemetry ⟨21, 70, 40, -60, 3, 3, 0⟩ (-70) true 95 101 77).state.consecutiveBadTemp = 0 ∧
    (readTelemetry ⟨21, 70, 40, -60, 3, 3, 0⟩ (-70) true 95 101 77).state.consecutiveBadHumidity = 0 := by
  norm_num [readTelemetry, tempValid, humidityValid, restartCheck]

/-! ## Cooperative scheduler due-check (loop, part_000 lines 836-856) -/

/-- The periodic-task due-check exactly as written three times in `loop()`
(part_000 lines 838, 846 and 856), for the poll, publish and indicator
timers respectively:
`lastFireTime == 0 || ( now > interval && ( now - interval ) > lastFireTime )`.
The C `&&` short-circuits, so the unsigned subtraction `now - interval` is
evaluated only under `now > interval`; truncated subtraction on ℕ
therefore agrees with the machine arithmetic. -/
def dueCheck (now interval lastFireTime : ℕ) : Bool :=
  decide (lastFireTime = 0) ||
    (decide (now > interval) && decide (now - interval > lastFireTime))

/-- C4: the due-check is true whenever `lastFireTime = 0` regardless of
`now`; for nonzero `lastFireTime` it is true only if `now` exceeds the
interval and `now - interval` exceeds `lastFireTime`; at
`now = 500, interval = 1000, lastFireTime = 400` the task is not due; and
for `now` within the first `interval` milliseconds a task with nonzero
`lastFireTime` is never due. -/
theorem dueCheck_spec (now interval lastFireTime : ℕ) :
    dueCheck now interval 0 = true ∧
    (lastFireTime ≠ 0 → dueCheck now interval lastFireTime = true →
      interval < now ∧ lastFireTime < now - interval) ∧
    dueCheck 500 1000 400 = false ∧
    (now ≤ interval → lastFireTime ≠ 0 →
      dueCheck now interval lastFireTime = false) := by
  refine ⟨by simp [dueCheck], ?_, by decide, ?_⟩
  · intro hne hdue
    simp only [dueCheck, Bool.or_eq_true, Bool.and_eq_true, decide_eq_true_eq] at hdue
    rcases hdue with h0 | h
    · exact absurd h0 hne
    · exact h
  · intro hle hne
    have h1 : decide (lastFireTime = 0) = false := by simp [hne]
    have h2 : decide (now > interval) = false := by
      simp only [decide_eq_false_iff_not]
      omega
    simp [dueCheck, h1, h2]

/-- C4 witness: the due-check at `now = 5000, interval = 1000,
`lastFireTime = 400`` is due and the necessary conditions hold, and at
`now = 500, interval = 1000, lastFireTime = 400` the task is not due. -/
theorem dueCheck_spec_witness :
    (1000 < 5000 ∧ 400 < 5000 - 1000) ∧
    dueCheck 500 1000 400 = false := by
  exact ⟨(dueCheck_spec 5000 1000 400).2.1 (by decide) (by decide),
    ((dueCheck_spec 500 1000 400).2.2.2 (by decide) (by decide))⟩

/-! ## Command dispatcher: changeTelemetryInterval
(onReceiveCallback, part_000 lines 168-177, part_001 lines 116-126) -/

/-- The number of milliseconds in one second (part_000 line 77). -/
def MILLIS_IN_SEC : ℕ := 1000

/-- The scheduler fields touched by the `changeTelemetryInterval` command
branch of `onReceiveCallback`. -/
structure SchedulerState where
  publishInterval : ℕ
  lastPublishTime : ℕ
  deriving Repr, DecidableEq

/-- Shallow embedding of the `changeTelemetryInterval` branch of
`onReceiveCallback` (part_000 lines 168-177; part_001 lines 116-126 are
identical): `publishInterval` is overwritten with the decoded `value`
only when `value > 4 * MILLIS_IN_SEC`; `lastPublishTime` is set to 0
unconditionally afterwards. -/
def changeTelemetryInterval (s : SchedulerState) (value : ℕ) : SchedulerState :=
  { publishInterval :=
      if value > 4 * MILLIS_IN_SEC then value else s.publishInterval,
    lastPublishTime := 0 }

/-- C3: a `changeTelemetryInterval` command with value 3999 leaves
`publishInterval` unchanged; with value 4001 it sets `publishInterval` to
4001 and resets `lastPublishTime` to the never-fired sentinel 0, which the
scheduler due-check treats as immediately due; and an update of
`publishInterval` can only have happened when the value was at least
4000 ms. -/
theorem changeTelemetryInterval_spec (s : SchedulerState) (value now interval : ℕ) :
    (changeTelemetryInterval s 3999).publishInterval = s.publishInterval ∧
    (changeTelemetryInterval s 4001).publishInterval = 4001 ∧
    (changeTelemetryInterval s 4001).lastPublishTime = 0 ∧
    dueCheck now interval (changeTelemetryInterval s 4001).lastPublishTime = true ∧
    ((changeTelemetryInterval s value).publishInterval ≠ s.publishInterval →
      4000 ≤ value) := by
  refine ⟨by simp [changeTelemetryInterval, MILLIS_IN_SEC],
    by simp [changeTelemetryInterval, MILLIS_IN_SEC],
    by simp [changeTelemetryInterval],
    by simp [changeTelemetryInterval, dueCheck], ?_⟩
  intro hchanged
  simp only [changeTelemetryInterval, MILLIS_IN_SEC] at hchanged
  by_contra hlt
  push_neg at hlt
  have : ¬ (value > 4 * 1000) := by omega
  rw [if_neg this] at hchanged
  exact hchanged rfl

/-- C3 witness: instantiating at a state with `publishInterval = 60000`,
`lastPublishTime = 123` and the command value 4001. -/
theorem changeTelemetryInterval_spec_witness :
    (changeTelemetryInterval ⟨60000, 123⟩ 3999).publishInterval = 60000 ∧
    4000 ≤ 4001 := by
  exact ⟨(changeTelemetryInterval_spec ⟨60000, 123⟩ 4001 7 5).1,
    (changeTelemetryInterval_spec ⟨60000, 123⟩ 4001 7 5).2.2.2.2 (by decide)⟩

/-- C10: a `changeTelemetryInterval` command whose value is at or below
the 4000 ms floor leaves `publishInterval` unchanged, yet still resets
`lastPublishTime` to the never-fired sentinel 0, so the next scheduler
due-check for the publish task fires immediately. -/
theorem changeTelemetryInterval_rejected_still_resets (s : SchedulerState)
    (value now interval : ℕ) (hfloor : value ≤ 4000) :
    (changeTelemetryInterval s value).publishInterval = s.publishInterval ∧
    (changeTelemetryInterval s value).lastPublishTime = 0 ∧
    dueCheck now interval (changeTelemetryInterval s value).lastPublishTime = true := by
  have : ¬ (value > 4 * MILLIS_IN_SEC) := by
    simp only [MILLIS_IN_SEC]; omega
  refine ⟨?_, rfl, by simp [changeTelemetryInterval, dueCheck]⟩
  simp [changeTelemetryInterval, this]

/-- C10 witness: instantiating at the boundary value 4000 itself, with a
state whose `publishInterval` is 60000 and whose `lastPublishTime` is
nonzero. -/
theorem changeTelemetryInterval_rejected_still_resets_witness :
    (changeTelemetryInterval ⟨60000, 5555⟩ 4000).publishInterval = 60000 ∧
    (changeTelemetryInterval ⟨60000, 5555⟩ 4000).lastPublishTime = 0 ∧
    dueCheck 9 1000 (changeTelemetryInterval ⟨60000, 5555⟩ 4000).lastPublishTime = true := by
  exact changeTelemetryInterval_rejected_still_resets ⟨60000, 5555⟩ 4000 9 1000 (by decide)

/-! ## Status LED indicator (loop, part_000 lines 854-870 and
part_001 lines 699-713; toggleLED, part_000 lines 814-820) -/

/-- The effect of one firing of the indicator timer on the LED pin.
The devkit LED is active low: writing 0 turns it on, writing 1 turns it
off.  `keep` records that no `digitalWrite`/`toggleLED` call happened. -/
inductive LedAction where
  | steadyOn
  | steadyOff
  | toggle
  | keep
  deriving Repr, DecidableEq

/-- Shallow embedding of the indicator branch of `loop()` in part_000
(lines 861-869): if `WiFi.status() == WL_CONNECTED` then toggle the LED
when `mqttClient.state() != 0` and hold it steady on (write 0) otherwise;
else (WiFi not associated) hold the LED steady off (write 1). -/
def indicatorActionV0 (wifiConnected : Bool) (mqttState : ℤ) : LedAction :=
  if wifiConnected then
    if mqttState ≠ 0 then LedAction.toggle else LedAction.steadyOn
  else
    LedAction.steadyOff

/-- Shallow embedding of the indicator branch of `loop()` in part_001
(lines 706-712): identical to part_000 when WiFi is associated, but the
`WiFi.status() == WL_CONNECTED` conditional has no else branch, so when
WiFi is not associated no LED write happens at all. -/
def indicatorActionV1 (wifiConnected : Bool) (mqttState : ℤ) : LedAction :=
  if wifiConnected then
    if mqttState ≠ 0 then LedAction.toggle else LedAction.steadyOn
  else
    LedAction.keep

/-- Application of a `LedAction` to the current LED pin level, following
`digitalWrite`/`toggleLED` (part_000 lines 814-820: toggling writes 1 when
the pin reads anything other than 1, and 0 otherwise). -/
def applyLed (a : LedAction) (pin : ℕ) : ℕ :=
  match a with
  | LedAction.steadyOn => 0
  | LedAction.steadyOff => 1
  | LedAction.toggle => if pin ≠ 1 then 1 else 0
  | LedAction.keep => pin

/-- C5 counterexample: the claim asserts that whenever the indicator timer
fires with WiFi not associated, the LED goes steady off irrespective of
the MQTT state.  In the part_001 variant of `loop()` (cited by the claim)
the WiFi conditional has no else branch: with WiFi not associated and the
LED currently on (pin 0), the firing leaves the pin at 0, not at the off
level 1. -/
theorem indicatorV1_not_steadyOff :
    indicatorActionV1 false (-1) ≠ LedAction.steadyOff ∧
    applyLed (indicatorActionV1 false (-1)) 0 = 0 ∧
    applyLed LedAction.steadyOff 0 = 1 := by
  refine ⟨by decide, rfl, rfl⟩

/-- C5 (amended): when the indicator timer fires, the LED action is a pure
function of (WiFi associated, MQTT connected).  In the part_000 loop:
both up gives steady on, WiFi up with MQTT down gives a toggle, WiFi down
gives steady off irrespective of the MQTT state.  The part_001 loop agrees
whenever WiFi is associated, but when WiFi is down it performs no LED
write, leaving the pin unchanged instead of steady off. -/
theorem indicatorAction_spec (mqttState : ℤ) (pin : ℕ) :
    indicatorActionV0 true 0 = LedAction.steadyOn ∧
    (mqttState ≠ 0 → indicatorActionV0 true mqttState = LedAction.toggle) ∧
    indicatorActionV0 false mqttState = LedAction.steadyOff ∧
    indicatorActionV1 true mqttState = indicatorActionV0 true mqttState ∧
    indicatorActionV1 false mqttState = LedAction.keep ∧
    applyLed LedAction.keep pin = pin := by
  refine ⟨rfl, ?_, rfl, rfl, rfl, rfl⟩
  intro hne
  simp [indicatorActionV0, hne]

/-- C5 witness: instantiating at MQTT state code -4 (connection timeout)
and an LED pin currently reading 0. -/
theorem indicatorAction_spec_witness :
    indicatorActionV0 true (-4) = LedAction.toggle := by
  exact (indicatorAction_spec (-4) 0).2.1 (by decide)

/-! ## MQTT connection cooldown (mqttMultiConnect, part_000 lines 427-540) -/

/-- Minimum time between `mqttMultiConnect` attempt cycles
(part_000 line 91): 20000 milliseconds. -/
def mqttReconnectCooldown : ℕ := 20000

/-- The state read and written by the cooldown logic of
`mqttMultiConnect`: the time of the last MQTT connection attempt (0 is
the never-attempted sentinel) and whether the client is connected. -/
structure MqttState where
  lastMqttConnectionTime : ℕ
  connected : Bool
  deriving Repr, DecidableEq

/-- Shallow embedding of `mqttMultiConnect` (part_000 lines 427-540) for
one attempt iteration, the `maxAttempts = 1` shape used by `loop()`.
`now` is `millis()` at entry (line 429); the guard (line 431) is
`lastMqttConnectionTime == 0 || (( now > mqttReconnectCooldown ) && ( now - mqttReconnectCooldown ) > lastMqttConnectionTime )`.
When the guard is false the whole body is skipped and no state changes.
When it is true, one `mqttClient.connect` attempt runs with outcome
`connectResult`, and on both the success branch (line 480) and the
failure branch (line 498) `lastMqttConnectionTime` is assigned the fresh
`millis()` value `afterTime`.  The returned flag records whether an
attempt cycle was performed. -/
def mqttMultiConnect (s : MqttState) (now : ℕ) (connectResult : Bool)
    (afterTime : ℕ) : MqttState × Bool :=
  if decide (s.lastMqttConnectionTime = 0) ||
      (decide (now > mqttReconnectCooldown) &&
        decide (now - mqttReconnectCooldown > s.lastMqttConnectionTime)) then
    if connectResult then
      ({ lastMqttConnectionTime := afterTime, connected := true }, true)
    else
      ({ lastMqttConnectionTime := afterTime, connected := false }, true)
  else
    (s, false)

/-- C6: if `mqttMultiConnect` recorded an attempt timestamp (nonzero, the
value 0 being the never-attempted sentinel) and is called again at a time
no later than that timestamp plus `mqttReconnectCooldown`, the second
call performs no connection attempt cycle and changes no state; and
whenever an attempt cycle does run, the attempt timestamp is recorded
regardless of whether the connection succeeded or failed, so the cooldown
applies even after failure. -/
theorem mqttMultiConnect_cooldown (s : MqttState) (now : ℕ)
    (connectResult : Bool) (afterTime : ℕ) :
    (0 < s.lastMqttConnectionTime →
      now ≤ s.lastMqttConnectionTime + mqttReconnectCooldown →
      mqttMultiConnect s now connectResult afterTime = (s, false)) ∧
    ((mqttMultiConnect s now connectResult afterTime).2 = true →
      (mqttMultiConnect s now connectResult afterTime).1.lastMqttConnectionTime
        = afterTime) := by
  constructor
  · intro hpos hwithin
    have h1 : decide (s.lastMqttConnectionTime = 0) = false := by
      simp only [decide_eq_false_iff_not]
      omega
    have h2 : (decide (now > mqttReconnectCooldown) &&
        decide (now - mqttReconnectCooldown > s.lastMqttConnectionTime)) = false := by
      rcases le_or_lt now mqttReconnectCooldown with hle | hgt
      · have : decide (now > mqttReconnectCooldown) = false := by
          simp only [decide_eq_false_iff_not]
          omega
        simp [this]
      · have : decide (now - mqttReconnectCooldown > s.lastMqttConnectionTime) = false := by
          simp only [decide_eq_false_iff_not]
          omega
        simp [this]
    simp [mqttMultiConnect, h1, h2]
  · intro hran
    unfold mqttMultiConnect at hran ⊢
    split at hran
    · rename_i hguard
      rw [if_pos hguard]
      cases connectResult <;> rfl
    · simp at hran

/-- C6 witness: a first attempt recorded at time 100; a second call at
time 20100 (exactly the end of the cooldown window) is a no-op, and an
attempt cycle run from the never-attempted state records the fresh
timestamp on a failed connection. -/
theorem mqttMultiConnect_cooldown_witness :
    mqttMultiConnect ⟨100, false⟩ 20100 true 777 = (⟨100, false⟩, false) ∧
    (mqttMultiConnect ⟨0, false⟩ 50 false 60).1.lastMqttConnectionTime = 60 := by
  exact ⟨(mqttMultiConnect_cooldown ⟨100, false⟩ 20100 true 777).1 (by decide) (by decide),
    (mqttMultiConnect_cooldown ⟨0, false⟩ 50 false 60).2 (by decide)⟩

/-! ## Command dispatcher (onReceiveCallback, part_000 lines 154-186) -/

/-- The immediate actions the dispatcher can take. -/
inductive CommandAction where
  | publishTelemetryNow
  | changeIntervalCmd
  | publishStatsNow
  | unknownLogged
  deriving Repr, DecidableEq

/-- Outcome of dispatching one decoded payload: either a well-defined
action, or the undefined behaviour of passing the null pointer produced
by `doc[ "command" ]` on a payload without a `command` member to
`strcmp`. -/
inductive DispatchOutcome where
  | action (a : CommandAction)
  | nullDeref
  deriving Repr, DecidableEq

/-- Shallow embedding of the command dispatch of `onReceiveCallback`
(part_000 lines 158-185).  `command` models the
`const char *command = doc[ "command" ]` lookup: `none` when the decoded
JSON has no `command` member, in which case ArduinoJson yields a null
`const char *` and the very first `strcmp( command, "publishTelemetry" )`
reads through the null pointer — undefined behaviour, modelled as
`nullDeref`.  With the member present, the chain of `strcmp` comparisons
selects the action, falling through to the unknown-command log line. -/
def onReceiveDispatch (command : Option String) : DispatchOutcome :=
  match command with
  | none => DispatchOutcome.nullDeref
  | some c =>
    if c = "publishTelemetry" then DispatchOutcome.action CommandAction.publishTelemetryNow
    else if c = "changeTelemetryInterval" then DispatchOutcome.action CommandAction.changeIntervalCmd
    else if c = "publishStats" then DispatchOutcome.action CommandAction.publishStatsNow
    else DispatchOutcome.action CommandAction.unknownLogged

/-- C7: on a payload whose decoded JSON lacks the `command` field, the
dispatcher reaches the null-pointer dereference inside the first
`strcmp` — it does not take the claimed safe path of skipping the absent
field and logging the case distinctly from an unknown command.  (An
unrecognized-but-present command, by contrast, reaches the
unknown-command log.) -/
theorem onReceiveDispatch_missing_command_derefs :
    onReceiveDispatch Option.none = DispatchOutcome.nullDeref ∧
    onReceiveDispatch (Option.some "bogus") =
      DispatchOutcome.action CommandAction.unknownLogged := by
  exact ⟨rfl, by decide⟩

/-! ## networkIndex sentinel and credential-array indexing
(printTelemetry part_001 lines 544-555, part_000 lines 602-631;
publishStats part_000 lines 715-740) -/

/-- The sentinel stored in `networkIndex` at boot (part_000 line 81),
meaning that WiFi has never connected. -/
def networkIndexSentinel : ℕ := 2112

/-- Shallow embedding of the broker display in part_000's
`printTelemetry` (lines 619-620): the formatting that indexes
`mqttBrokerArray[ networkIndex ]` and `mqttPortArray[ networkIndex ]` is
guarded by `networkIndex != 2112`, so nothing is formatted for the
sentinel.  C array indexing is modelled by `List.get?`: `none` is an
out-of-bounds read. -/
def printTelemetryBrokerV0 (mqttBrokerArray : List String)
    (mqttPortArray : List ℕ) (networkIndex : ℕ) :
    Option (Option (String × ℕ)) :=
  if networkIndex ≠ networkIndexSentinel then
    match mqttBrokerArray.get? networkIndex, mqttPortArray.get? networkIndex with
    | Option.some b, Option.some p => Option.some (Option.some (b, p))
    | _, _ => Option.none
  else
    Option.some Option.none

/-- Shallow embedding of the first two lines of part_001's
`printTelemetry` (lines 546-547), which format
`wifiSsidArray[ networkIndex ]`, `mqttBrokerArray[ networkIndex ]` and
`mqttPortArray[ networkIndex ]` with no sentinel check at all.  `none` is
an out-of-bounds read. -/
def printTelemetryHeaderV1 (wifiSsidArray mqttBrokerArray : List String)
    (mqttPortArray : List ℕ) (networkIndex : ℕ) :
    Option (String × String × ℕ) :=
  match wifiSsidArray.get? networkIndex, mqttBrokerArray.get? networkIndex,
      mqttPortArray.get? networkIndex with
  | Option.some s, Option.some b, Option.some p => Option.some (s, b, p)
  | _, _, _ => Option.none

/-- Shallow embedding of the success log line of part_000's
`publishStats` (lines 733-739): when the client is connected and the
publish succeeds, the log line formats `mqttBrokerArray[ networkIndex ]`
and `mqttPortArray[ networkIndex ]` guarded only by
`mqttClient.connected()`, never by the sentinel check. -/
def publishStatsLogV0 (mqttBrokerArray : List String) (mqttPortArray : List ℕ)
    (networkIndex : ℕ) (mqttConnected publishOk : Bool) :
    Option (Option (String × ℕ)) :=
  if mqttConnected && publishOk then
    match mqttBrokerArray.get? networkIndex, mqttPortArray.get? networkIndex with
    | Option.some b, Option.some p => Option.some (Option.some (b, p))
    | _, _ => Option.none
  else
    Option.some Option.none

/-- C8: the sentinel is not kept away from the credential arrays on every
display path.  With the four-entry credential arrays and
`networkIndex = 2112` (reachable: `networkIndex` keeps its boot value
whenever WiFi has never associated, and part_001's `loop()` calls
`printTelemetry` on its very first poll tick regardless), part_001's
`printTelemetry` indexes all three arrays at 2112 — an out-of-bounds
read — and part_000's `publishStats` log line likewise indexes them
unguarded once a publish succeeds; part_000's `printTelemetry` broker
display, by contrast, does branch on the sentinel first. -/
theorem sentinel_indexes_credential_arrays :
    printTelemetryHeaderV1 ["Network1", "Network2", "Network3", "Syrinx"]
      ["Broker1", "Broker2", "Broker3", "192.168.0.2"]
      [1883, 1883, 1883, 2112] networkIndexSentinel = Option.none ∧
    publishStatsLogV0 ["Broker1", "Broker2", "Broker3", "192.168.0.2"]
      [1883, 1883, 1883, 2112] networkIndexSentinel true true = Option.none ∧
    printTelemetryBrokerV0 ["Broker1", "Broker2", "Broker3", "192.168.0.2"]
      [1883, 1883, 1883, 2112] networkIndexSentinel = Option.some Option.none := by
  refine ⟨rfl, rfl, rfl⟩

/-! ## WiFi multi-connect loop (wifiMultiConnect, part_000 lines 324-388;
checkForSSID, part_000 lines 396-417) -/

/-- The loop bound of `wifiMultiConnect` (part_000 line 329) is written
`sizeof( wifiSsidArray )`, the size of the array in BYTES.  The array
holds `const char *` entries, each 4 bytes on the 32-bit ESP8266, so the
bound is four times the entry count rather than the entry count. -/
def sizeofWifiSsidArray (entryCount : ℕ) : ℕ := entryCount * 4

/-- Environment of one `wifiMultiConnect` run: per-index outcomes of the
`checkForSSID` scan (part_000 lines 396-417) and of the bounded
association wait (part_000 lines 345-370). -/
structure WifiEnv where
  ssidVisible : ℕ → Bool
  associationSucceeds : ℕ → Bool

/-- Result of a `wifiMultiConnect` run: association established at an
index (which is then stored into `networkIndex`), loop exhausted without
association (the function returns and `networkIndex` keeps its prior
value), or an out-of-bounds read of the credential arrays. -/
inductive WifiResult where
  | connectedAt (networkIndex : ℕ)
  | notConnected
  | outOfBoundsRead (index : ℕ)
  deriving Repr, DecidableEq

/-- One pass of the `wifiMultiConnect` body over a list of loop indices.
For each index the body first reads `wifiSsidArray[ index ]` and
`wifiPassArray[ index ]` (an out-of-bounds read if the index is past the
end of the credential list), then skips the association attempt when
`checkForSSID` does not find the SSID, attempts association otherwise,
and returns at the first success. -/
def wifiLoopGo (creds : List (String × String)) (env : WifiEnv) :
    List ℕ → WifiResult
  | [] => WifiResult.notConnected
  | index :: rest =>
    match creds.get? index with
    | Option.none => WifiResult.outOfBoundsRead index
    | Option.some _ =>
      if env.ssidVisible index then
        if env.associationSucceeds index then WifiResult.connectedAt index
        else wifiLoopGo creds env rest
      else wifiLoopGo creds env rest

/-- Shallow embedding of `wifiMultiConnect` (part_000 lines 324-388):
the loop runs `networkArrayIndex` from 0 up to
`sizeof( wifiSsidArray )`, the byte size of the credential array. -/
def wifiMultiConnect (creds : List (String × String)) (env : WifiEnv) :
    WifiResult :=
  wifiLoopGo creds env (List.range (sizeofWifiSsidArray creds.length))

/-- C9: `wifiMultiConnect` does not iterate exactly the entries of the
credential sequence.  With the four-entry credential array and no SSID
visible in the scan, the loop bound `sizeof( wifiSsidArray ) = 16`
exceeds the entry count, and after skipping the four real entries the
body reads `wifiSsidArray[ 4 ]` — past the end of the array — instead of
returning with WiFi unassociated. -/
theorem wifiMultiConnect_reads_past_end :
    wifiMultiConnect
      [("Network1", "Password1"), ("Network2", "Password2"),
       ("Network3", "Password3"), ("Syrinx", "By-Tor")]
      ⟨fun _ => false, fun _ => false⟩ = WifiResult.outOfBoundsRead 4 := by
  rfl

end ESP8266HTU21D
